import Mathlib

/-!
Shallow embedding of the newsletter-generation pipeline (`main.py`).

The program is a single-file orchestration script: two manual web searches,
a string formatter that renders the search results into a digest, four
sequential agent stages whose prompts are built from the digest and the
previous stage's text, a defensive response-field extractor, and an
interactive credential gate in the `__main__` block.

Python-level conventions mirrored here:
  - a dictionary field read with `.get(k)` is an `Option`;
  - an f-string interpolation of a possibly-`None` value is `pyStrOpt`
    (Python renders `None` as the literal text `None`);
  - a string slice `s[:n]` is `pyTake s n` (slicing is by characters);
  - `str.lower()` is `pyLower` (character-wise lowering);
  - Python truthiness of an optional string is `pyTruthyStr`
    (`None` and the empty string are falsy).

External collaborators (the Exa search tool and the four LLM agents) are
parameters of the embedding: a tool oracle
`SearchInputSchema → Except String SearchResponse` (`Except.error` models a
raised exception) and one `String → AgentResponse` function per agent,
taking the single user message the orchestrator puts into the history.
-/

namespace NewsletterAgent

set_option maxRecDepth 40000

/-- Python rendering of a possibly-absent value inside an f-string:
`None` prints as the literal text `None`. -/
def pyStrOpt : Option String → String
  | none => "None"
  | some s => s

/-- Python character slice `s[:n]`. -/
def pyTake (s : String) (n : Nat) : String := ⟨s.data.take n⟩

/-- Python `str.lower()`, character by character. -/
def pyLower (s : String) : String := ⟨s.data.map Char.toLower⟩

/-- Python truthiness of an optional string: `None` and `""` are falsy. -/
def pyTruthyStr : Option String → Bool
  | none => false
  | some s => s ≠ ""

/-- One search result record as consumed by `run_pipeline`: every field is
read with `.get`, so every field may be absent. -/
structure SearchResultRec where
  title : Option String
  url : Option String
  published_date : Option String
  content_preview : Option String
deriving DecidableEq, Repr

/-- The dictionary shape `manual_search` returns and `run_pipeline` reads:
`success`, `search_query` (absent on the error dictionaries `manual_search`
builds), `results` (read with default `[]`), `error_message`. -/
structure SearchResponse where
  success : Bool
  search_query : Option String
  results : List SearchResultRec
  error_message : Option String
deriving DecidableEq, Repr

/-- The `SearchInputSchema` the tool is invoked with. -/
structure SearchInputSchema where
  search_query : String
  days_ago : Nat
  max_results : Nat
deriving DecidableEq, Repr

/-- The `SearchInputSchema` built inside `manual_search`: the caller's query
and window, and `max_results` hard-coded to 5. -/
def manualSearchInput (query : String) (days_ago : Nat) : SearchInputSchema :=
  { search_query := query, days_ago := days_ago, max_results := 5 }

/-- `manual_search`, lines 195-205: run the tool; on a result whose
`success` is set, return it unchanged; on `success = false` return a fresh
error dictionary (keeping the tool's `error_message`, defaulting to
`"Unknown error"`); on a raised exception return an error dictionary whose
message is `str(e)`. The fresh error dictionaries carry only the two keys
`success` and `error_message`, so `search_query` is absent and `results`
reads as `[]`. -/
def manual_search (toolOutcome : Except String SearchResponse) : SearchResponse :=
  match toolOutcome with
  | Except.ok results =>
      if results.success then results
      else
        { success := false, search_query := none, results := [],
          error_message := some (results.error_message.getD "Unknown error") }
  | Except.error e =>
      { success := false, search_query := none, results := [],
        error_message := some e }

/-- The preview part of one rendered result, lines 234-235 / 244-245:
emitted only when `content_preview` is truthy, with the preview sliced to
its first 300 characters. -/
def previewLine (r : SearchResultRec) : String :=
  match r.content_preview with
  | none => ""
  | some p => if p = "" then "" else "Preview: " ++ pyTake p 300 ++ "...\n\n"

/-- One rendered result, lines 230-235 (identical at 240-245): index label,
then `Title`, `URL`, `Published` lines interpolated with `.get` values
(absent renders as `None`), then the optional preview part. -/
def formatResult (i : Nat) (r : SearchResultRec) : String :=
  "[Result " ++ toString (i + 1) ++ "]\n"
    ++ "Title: " ++ pyStrOpt r.title ++ "\n"
    ++ "URL: " ++ pyStrOpt r.url ++ "\n"
    ++ "Published: " ++ pyStrOpt r.published_date ++ "\n"
    ++ previewLine r

/-- The `for i, result in enumerate(...)` loop body, accumulating rendered
results with indices counted from `i`. -/
def formatResultsFrom (i : Nat) : List SearchResultRec → String
  | [] => ""
  | r :: rs => formatResult i r ++ formatResultsFrom (i + 1) rs

/-- All results of one response rendered in order, indices from 0. -/
def formatResultsBlock (rs : List SearchResultRec) : String :=
  formatResultsFrom 0 rs

/-- The primary response's section of the digest, lines 227-235: present
only when `success` is truthy; a query/count header line then the rendered
results. -/
def primarySection (resp : SearchResponse) : String :=
  if resp.success then
    "Search for \x27" ++ pyStrOpt resp.search_query ++ "\x27 found "
      ++ toString resp.results.length ++ " results:\n\n"
      ++ formatResultsBlock resp.results
  else ""

/-- The secondary response's section, lines 237-245: same shape, with a
leading newline before its header. -/
def secondarySection (resp : SearchResponse) : String :=
  if resp.success then
    "\nSearch for \x27" ++ pyStrOpt resp.search_query ++ "\x27 found "
      ++ toString resp.results.length ++ " results:\n\n"
      ++ formatResultsBlock resp.results
  else ""

/-- `search_summary`, lines 226-245: the constant header then both
sections, each appended only on success. -/
def buildSearchSummary (primary secondary : SearchResponse) : String :=
  "SEARCH RESULTS:\n\n" ++ primarySection primary ++ secondarySection secondary

/-- An agent response object: the three probed text fields, each possibly
absent (`hasattr` is `Option.isSome` here), plus the object's `str(...)`
conversion used as the last resort. -/
structure AgentResponse where
  response_message : Option String
  content : Option String
  response_content : Option String
  strRepr : String
deriving DecidableEq, Repr

/-- The response-shape probing repeated at lines 269-278, 305-312, 334-341
and 360-367: `response_message`, then `content`, then `response_content`,
else `str(result)`. -/
def extractContent (r : AgentResponse) : String :=
  match r.response_message with
  | some s => s
  | none =>
    match r.content with
    | some s => s
    | none =>
      match r.response_content with
      | some s => s
      | none => r.strRepr

/-- The stage-1 message, lines 249-257. -/
def researchMessage (user_input search_summary : String) : String :=
  "Research task: Analyze these search results about " ++ user_input ++ ".\n\n"
    ++ search_summary ++ "\n\n"
    ++ "Organize these findings into clear research with reliable sources. "
    ++ "Include the significance of each development and its broader industry impact. "
    ++ "If you need more specific information, use the search_and_contents tool with a specific query."

/-- The digest excerpt re-used in stage 2, line 293: `search_summary[:1000]`,
a slice of the WHOLE stage-1 digest. -/
def insightsDigest (search_summary : String) : String :=
  pyTake search_summary 1000

/-- The stage-2 message, lines 290-295. -/
def insightsMessage (user_input research_content search_summary : String) : String :=
  "Add insights to the following research about " ++ user_input ++ ".\n\n"
    ++ "Research to analyze:\n" ++ research_content ++ "\n\n"
    ++ "Also consider these additional search results:\n"
    ++ insightsDigest search_summary ++ "...\n\n"
    ++ "If you need any specific information, use the search_and_contents tool with a specific query."

/-- The stage-3 message, line 324. -/
def writingMessage (user_input insights_content : String) : String :=
  "Transform these insights about " ++ user_input
    ++ " into engaging newsletter content:\n\n" ++ insights_content

/-- The stage-4 message, lines 347-350. -/
def editingMessage (user_input newsletter_draft : String) : String :=
  "Proofread and refine this newsletter draft about " ++ user_input ++ ". "
    ++ "Ensure all sources are properly cited and the content is engaging and informative:\n\n"
    ++ newsletter_draft

/-- The four role agents, each modelled as a function from the single user
message the orchestrator puts into the history to the response object. -/
structure Agents where
  researcher : String → AgentResponse
  insights_expert : String → AgentResponse
  writer : String → AgentResponse
  editor : String → AgentResponse

/-- `run_pipeline`, lines 209-381: two manual searches, the digest, four
agent stages each fed one synthesized history message, and the returned
dictionary (kept as an ordered key/value list, matching the dict literal of
lines 376-381). Also returns the list of `SearchInputSchema` values the
pipeline handed to the tool, in call order, so the search contract can be
stated.  -/
def run_pipeline (ag : Agents) (tool : SearchInputSchema → Except String SearchResponse)
    (user_input : String) : List (String × String) × List SearchInputSchema :=
  let primary_input := manualSearchInput ("latest developments in " ++ user_input) 30
  let primary_search_results := manual_search (tool primary_input)
  let secondary_input := manualSearchInput ("impact of " ++ user_input) 60
  let secondary_search_results := manual_search (tool secondary_input)
  let search_summary := buildSearchSummary primary_search_results secondary_search_results
  let research_content := extractContent (ag.researcher (researchMessage user_input search_summary))
  let insights_content :=
    extractContent (ag.insights_expert (insightsMessage user_input research_content search_summary))
  let newsletter_draft := extractContent (ag.writer (writingMessage user_input insights_content))
  let final_newsletter := extractContent (ag.editor (editingMessage user_input newsletter_draft))
  ([("research", research_content), ("insights", insights_content),
    ("draft", newsletter_draft), ("final", final_newsletter)],
   [primary_input, secondary_input])

/-- Outcome of the `__main__` startup gate, lines 388-401: either
`sys.exit(1)` fires at the gate (so control never reaches the
`NewsletterAgents(...)` construction at line 401), or the gate is passed
and the agents are constructed. -/
inductive GateOutcome where
  | exitedAtGate (code : Nat)
  | constructedAgents
deriving DecidableEq, Repr

/-- The `__main__` startup gate, lines 388-401: if the EXA credential is
falsy (absent or empty), prompt; continue only when the lowercased answer
is exactly `"y"`, otherwise `sys.exit(1)` before any agent is constructed. -/
def mainStartupGate (exa_api_key : Option String) (answer : String) : GateOutcome :=
  if pyTruthyStr exa_api_key then GateOutcome.constructedAgents
  else if pyLower answer = "y" then GateOutcome.constructedAgents
  else GateOutcome.exitedAtGate 1

/-! Concrete fixtures used by counterexamples and witnesses. -/

/-- A result record with every field absent. -/
def rEmpty : SearchResultRec := ⟨none, none, none, none⟩

/-- A partially-absent record: no title, url and date present, and a
present but empty preview. -/
def rMixed : SearchResultRec :=
  ⟨none, some "https://example.com", some "2024-01-01", some ""⟩

/-- A result record whose title alone is 1200 characters long, so the
primary digest section cannot fit within a 1000-character slice. -/
def rLong : SearchResultRec :=
  ⟨some (String.mk (List.replicate 1200 'a')), none, none, none⟩

/-- A successful primary search response carrying `rLong`. -/
def p0 : SearchResponse := ⟨true, some "latest developments in ai", [rLong], none⟩

/-- A successful secondary search response carrying `rEmpty`. -/
def s0 : SearchResponse := ⟨true, some "impact of ai", [rEmpty], none⟩

/-- A failed search response, as `manual_search` would hand back. -/
def pFail : SearchResponse := ⟨false, none, [], some "provider error"⟩

/-- An agent response exposing none of the probed fields. -/
def stubResponse : AgentResponse := ⟨none, none, none, "stub"⟩

/-- Four stub agents for concrete pipeline runs. -/
def agents0 : Agents :=
  ⟨fun _ => stubResponse, fun _ => stubResponse, fun _ => stubResponse, fun _ => stubResponse⟩

/-- A tool oracle that always raises. -/
def tool0 : SearchInputSchema → Except String SearchResponse :=
  fun _ => Except.error "network unreachable"

/-- Modelled from the spec: the stage-2 digest as the claim describes it,
namely both result sections concatenated with ONLY the secondary section
truncated to its first 1000 characters and the primary section kept in
full. Written to be compared with `insightsDigest`, the digest slice the
code actually re-uses in stage 2. -/
def insightsDigestClaimed (p s : SearchResponse) : String :=
  "SEARCH RESULTS:\n\n" ++ primarySection p ++ pyTake (secondarySection s) 1000

/-- Modelled from the spec: one rendered result as the claim describes it,
with an absent `title`, `url` or `published_date` rendering as the empty
string. Written to be compared with `formatResult`, the renderer the code
actually runs. -/
def formatResultClaimed (i : Nat) (r : SearchResultRec) : String :=
  "[Result " ++ toString (i + 1) ++ "]\n"
    ++ "Title: " ++ (r.title.getD "") ++ "\n"
    ++ "URL: " ++ (r.url.getD "") ++ "\n"
    ++ "Published: " ++ (r.published_date.getD "") ++ "\n"
    ++ previewLine r

/-- Length of a Python character slice: `min` of the bound and the length. -/
lemma pyTake_length (s : String) (n : Nat) : (pyTake s n).length = min n s.length := by
  cases s with
  | mk l => exact List.length_take n l

/-- C1 counterexample: with a primary result whose title is 1200 characters
long, the digest slice the code re-uses in stage 2 (`search_summary[:1000]`,
line 293) differs from the claim's digest (primary section in full, only the
secondary truncated), and is in fact shorter than the primary section alone,
so the primary rendering cannot be included in full. -/
theorem C1_stage2_digest_counterexample :
    insightsDigest (buildSearchSummary p0 s0) ≠ insightsDigestClaimed p0 s0 ∧
    (insightsDigest (buildSearchSummary p0 s0)).length < (primarySection p0).length := by
  constructor
  · decide
  · decide

/-- C1 (amended): the digest re-used in the stage-2 (insights) prompt is the
WHOLE stage-1 digest — header and both result sections — truncated to its
first 1000 characters: it is a prefix of the stage-1 digest of length
`min 1000 (length of the digest)`, so when the digest exceeds 1000
characters the primary section itself is cut and the secondary section may
be dropped entirely. -/
theorem C1_stage2_digest_whole_truncation (p s : SearchResponse) :
    (insightsDigest (buildSearchSummary p s)).data <+: (buildSearchSummary p s).data ∧
    (insightsDigest (buildSearchSummary p s)).length
      = min 1000 (buildSearchSummary p s).length := by
  refine ⟨ List.take_prefix _ _, pyTake_length _ _⟩

/-- C2 counterexample: on a record with every field absent, the renderer the
code runs differs from the claim's renderer in which absent fields come out
as the empty string — the code writes the literal text `None` into the
`Title`, `URL` and `Published` lines. -/
theorem C2_absent_field_counterexample :
    formatResult 0 rEmpty ≠ formatResultClaimed 0 rEmpty := by decide

/-- C2 (amended): the result-formatting step is total (a plain function of
the record, so it returns a string for every sequence of records without
raising), but the claim's empty-string rendering fails: for every record,
whichever single field is absent, that field — `title`, `url` or
`published_date` — renders in place as the literal text `None` (Python's
rendering of `None` in an f-string) with all other fields rendered as
usual, and an absent or empty `content_preview` omits the preview line
entirely. Each conjunct constrains only the one field it is about, so
partially-absent records are covered. -/
theorem C2_absent_fields_render_as_None (i : Nat) (r : SearchResultRec) :
    (r.title = none →
      formatResult i r
        = "[Result " ++ toString (i + 1) ++ "]\n"
          ++ "Title: " ++ "None" ++ "\n"
          ++ "URL: " ++ pyStrOpt r.url ++ "\n"
          ++ "Published: " ++ pyStrOpt r.published_date ++ "\n"
          ++ previewLine r) ∧
    (r.url = none →
      formatResult i r
        = "[Result " ++ toString (i + 1) ++ "]\n"
          ++ "Title: " ++ pyStrOpt r.title ++ "\n"
          ++ "URL: " ++ "None" ++ "\n"
          ++ "Published: " ++ pyStrOpt r.published_date ++ "\n"
          ++ previewLine r) ∧
    (r.published_date = none →
      formatResult i r
        = "[Result " ++ toString (i + 1) ++ "]\n"
          ++ "Title: " ++ pyStrOpt r.title ++ "\n"
          ++ "URL: " ++ pyStrOpt r.url ++ "\n"
          ++ "Published: " ++ "None" ++ "\n"
          ++ previewLine r) ∧
    (r.content_preview = none ∨ r.content_preview = some "" → previewLine r = "") := by
  refine ⟨fun ht => ?_, fun hu => ?_, fun hp => ?_, fun hc => ?_⟩
  · simp [formatResult, pyStrOpt, ht]
  · simp [formatResult, pyStrOpt, hu]
  · simp [formatResult, pyStrOpt, hp]
  · rcases hc with hc | hc <;> simp [previewLine, hc]

/-- C2 witness: the amended theorem evaluated on a partially-absent record
(absent title, present url and date, empty preview) and on the all-absent
record, discharging every hypothesis of the four conjuncts. -/
theorem C2_absent_fields_render_as_None_witness :
    rMixed.title = none ∧ rMixed.content_preview = some "" ∧
    rEmpty.url = none ∧ rEmpty.published_date = none ∧ rEmpty.content_preview = none ∧
    (formatResult 0 rMixed
      = "[Result " ++ toString (0 + 1) ++ "]\n"
        ++ "Title: " ++ "None" ++ "\n"
        ++ "URL: " ++ pyStrOpt rMixed.url ++ "\n"
        ++ "Published: " ++ pyStrOpt rMixed.published_date ++ "\n"
        ++ previewLine rMixed) ∧
    previewLine rMixed = "" ∧
    (formatResult 0 rEmpty
      = "[Result " ++ toString (0 + 1) ++ "]\n"
        ++ "Title: " ++ pyStrOpt rEmpty.title ++ "\n"
        ++ "URL: " ++ "None" ++ "\n"
        ++ "Published: " ++ pyStrOpt rEmpty.published_date ++ "\n"
        ++ previewLine rEmpty) ∧
    (formatResult 0 rEmpty
      = "[Result " ++ toString (0 + 1) ++ "]\n"
        ++ "Title: " ++ pyStrOpt rEmpty.title ++ "\n"
        ++ "URL: " ++ pyStrOpt rEmpty.url ++ "\n"
        ++ "Published: " ++ "None" ++ "\n"
        ++ previewLine rEmpty) ∧
    previewLine rEmpty = "" :=
  ⟨rfl, rfl, rfl, rfl, rfl,
    (C2_absent_fields_render_as_None 0 rMixed).1 rfl,
    (C2_absent_fields_render_as_None 0 rMixed).2.2.2 (Or.inr rfl),
    (C2_absent_fields_render_as_None 0 rEmpty).2.1 rfl,
    (C2_absent_fields_render_as_None 0 rEmpty).2.2.1 rfl,
    (C2_absent_fields_render_as_None 0 rEmpty).2.2.2 (Or.inl rfl)⟩

/-- C3: the stage text is extracted by probing `response_message`, then
`content`, then `response_content`, in that order, and only when all three
are absent does the orchestrator fall back to the string conversion of the
whole response object; in particular a response exposing only `content`
yields that field's value. -/
theorem C3_response_field_precedence (r : AgentResponse) :
    (∀ s, r.response_message = some s → extractContent r = s) ∧
    (r.response_message = none → ∀ s, r.content = some s → extractContent r = s) ∧
    (r.response_message = none → r.content = none →
      ∀ s, r.response_content = some s → extractContent r = s) ∧
    (r.response_message = none → r.content = none → r.response_content = none →
      extractContent r = r.strRepr) := by
  refine ⟨?_, ?_, ?_, ?_⟩ <;> intros <;> simp_all [extractContent]

/-- C3 witness: a response exposing only `content` yields that field's
value, not the object's string conversion. -/
theorem C3_response_field_precedence_witness :
    (AgentResponse.mk none (some "the stage text") none "objRepr").response_message = none ∧
    (AgentResponse.mk none (some "the stage text") none "objRepr").content
      = some "the stage text" ∧
    extractContent (AgentResponse.mk none (some "the stage text") none "objRepr")
      = "the stage text" :=
  ⟨rfl, rfl,
    (C3_response_field_precedence
      (AgentResponse.mk none (some "the stage text") none "objRepr")).2.1
        rfl "the stage text" rfl⟩

/-- C4: a primary response with `success = false` contributes an empty
primary section and a secondary response with `success = false` an empty
secondary section (with both failed the digest is just its constant
header), and the pipeline — a total function here because the digest
construction performs no fallible operation — still produces entries for
all four stages, the final stage included, for every tool oracle and every
agent family. -/
theorem C4_failed_search_omitted_nonfatal (p s : SearchResponse) (ag : Agents)
    (tool : SearchInputSchema → Except String SearchResponse) (topic : String)
    (hp : p.success = false) (hs : s.success = false) :
    primarySection p = "" ∧ secondarySection s = "" ∧
    buildSearchSummary p s = "SEARCH RESULTS:\n\n" ∧
    ((run_pipeline ag tool topic).1).map Prod.fst
      = ["research", "insights", "draft", "final"] := by
  refine ⟨?_, ?_, ?_, rfl⟩
  · simp [primarySection, hp]
  · simp [secondarySection, hs]
  · apply String.ext
    simp [buildSearchSummary, primarySection, secondarySection, hp, hs, String.data_append]

/-- C4 witness: the theorem evaluated on a concrete failed response, stub
agents and an always-raising tool oracle. -/
theorem C4_failed_search_omitted_nonfatal_witness :
    pFail.success = false ∧
    (primarySection pFail = "" ∧ secondarySection pFail = "" ∧
      buildSearchSummary pFail pFail = "SEARCH RESULTS:\n\n" ∧
      ((run_pipeline agents0 tool0 "ai").1).map Prod.fst
        = ["research", "insights", "draft", "final"]) :=
  ⟨rfl, C4_failed_search_omitted_nonfatal pFail pFail agents0 tool0 "ai" rfl rfl⟩

/-- C5: whenever all four agent calls return (they are total functions of
the embedding, matching the claim's assumption that all four calls
succeed), the returned dictionary has exactly the four keys `research`,
`insights`, `draft`, `final` in that order, and each value is a `String` of
the embedding — `extractContent` always yields a string, the `str(...)`
fallback included, so no value is null. -/
theorem C5_pipeline_result_four_keys (ag : Agents)
    (tool : SearchInputSchema → Except String SearchResponse) (topic : String) :
    ((run_pipeline ag tool topic).1).map Prod.fst
      = ["research", "insights", "draft", "final"] ∧
    ((run_pipeline ag tool topic).1).length = 4 := ⟨rfl, rfl⟩

/-- C6: the preview part of any rendered result is at most 300 characters
of preview text plus the fixed label overhead — the `Preview: ` label and
the trailing `...` with its blank line. -/
theorem C6_preview_capped_300 (r : SearchResultRec) :
    (previewLine r).length ≤ ("Preview: ").length + 300 + ("...\n\n").length := by
  cases hc : r.content_preview with
  | none => simp [previewLine, hc]
  | some p =>
    by_cases hp : p = ""
    · simp [previewLine, hc, hp]
    · have h1 : previewLine r = "Preview: " ++ pyTake p 300 ++ "...\n\n" := by
        simp [previewLine, hc, hp]
      rw [h1, String.length_append, String.length_append]
      have h2 : (pyTake p 300).length = min 300 p.length := pyTake_length p 300
      omega

/-- C7: for every topic, the pipeline hands the search tool exactly two
inputs, in order: `latest developments in {topic}` over a 30-day window and
`impact of {topic}` over a 60-day window, each with `max_results = 5`. -/
theorem C7_two_searches_issued (ag : Agents)
    (tool : SearchInputSchema → Except String SearchResponse) (topic : String) :
    (run_pipeline ag tool topic).2
      = [⟨"latest developments in " ++ topic, 30, 5⟩,
         ⟨"impact of " ++ topic, 60, 5⟩] := rfl

/-- C8: with the EXA credential absent from the environment
(`os.getenv` returns `None`), any answer the gate does not read as yes —
any answer whose lowercased text is not `y`, the prompt being `(y/n)` —
makes the process exit with status 1 at the gate, before any agent is
constructed (the `exitedAtGate` outcome precedes the `NewsletterAgents`
construction of line 401). -/
theorem C8_credential_gate_exit_one (answer : String) (h : pyLower answer ≠ "y") :
    mainStartupGate none answer = GateOutcome.exitedAtGate 1 := by
  simp [mainStartupGate, pyTruthyStr, h]

/-- C8 witness: answering `NO` at the gate with no credential set. -/
theorem C8_credential_gate_exit_one_witness :
    pyLower "NO" ≠ "y" ∧ mainStartupGate none "NO" = GateOutcome.exitedAtGate 1 :=
  ⟨by decide, C8_credential_gate_exit_one "NO" (by decide)⟩

/-- C9: `manual_search` is total over both ways the tool can fail — for a
raised exception the wrapper returns `success = false` with the exception
text as `error_message`, and for a tool result whose success flag is false
it returns `success = false` with the tool's `error_message` (defaulting to
`Unknown error`); C4 shows the pipeline renders such error-flagged results
as an omitted digest section and continues. -/
theorem C9_manual_search_error_flagged (e : String) (res : SearchResponse)
    (hres : res.success = false) :
    (manual_search (Except.error e)).success = false ∧
    (manual_search (Except.error e)).error_message = some e ∧
    (manual_search (Except.ok res)).success = false ∧
    (manual_search (Except.ok res)).error_message
      = some (res.error_message.getD "Unknown error") := by
  refine ⟨rfl, rfl, ?_, ?_⟩ <;> simp [manual_search, hres]

/-- C9 witness: a raised exception `boom` and a failed tool result with no
message of its own. -/
theorem C9_manual_search_error_flagged_witness :
    (SearchResponse.mk false (some "impact of ai") [] none).success = false ∧
    ((manual_search (Except.error "boom")).success = false ∧
      (manual_search (Except.error "boom")).error_message = some "boom" ∧
      (manual_search (Except.ok (SearchResponse.mk false (some "impact of ai") [] none))).success
        = false ∧
      (manual_search
          (Except.ok (SearchResponse.mk false (some "impact of ai") [] none))).error_message
        = some ((SearchResponse.mk false (some "impact of ai") [] none).error_message.getD
            "Unknown error")) :=
  ⟨rfl, C9_manual_search_error_flagged "boom"
    (SearchResponse.mk false (some "impact of ai") [] none) rfl⟩

/-- C10: for every pair of search responses — both failed included — the
digest starts with the constant header `SEARCH RESULTS:` followed by a
blank line, hence is never empty, and the stage-1 research message embeds
that digest in full between fixed surrounding text. -/
theorem C10_digest_header_nonempty (p s : SearchResponse) (topic : String) :
    (∃ rest, buildSearchSummary p s = "SEARCH RESULTS:\n\n" ++ rest) ∧
    buildSearchSummary p s ≠ "" ∧
    (∃ pre post,
      researchMessage topic (buildSearchSummary p s)
        = pre ++ buildSearchSummary p s ++ post) := by
  refine ⟨⟨primarySection p ++ secondarySection s, ?_⟩, ?_, ?_⟩
  · apply String.ext
    simp [buildSearchSummary, String.data_append]
  · intro h
    have hlen := congrArg String.length h
    rw [buildSearchSummary, String.length_append, String.length_append] at hlen
    have h17 : ("SEARCH RESULTS:\n\n").length = 17 := rfl
    have h0 : ("" : String).length = 0 := rfl
    omega
  · refine ⟨"Research task: Analyze these search results about " ++ topic ++ ".\n\n",
      "\n\n" ++ "Organize these findings into clear research with reliable sources. "
        ++ "Include the significance of each development and its broader industry impact. "
        ++ "If you need more specific information, use the search_and_contents tool with a specific query.",
      ?_⟩
    apply String.ext
    simp [researchMessage, String.data_append]

end NewsletterAgent
